import Mathlib

/-!
Verification of the NotebookLM browser-automation bridge
(`notebooklm_auth.py` and `notebooklm_upload.py`).

The Python code is shallowly embedded: the browser-automation capability
(Playwright) is modelled by an environment `Env` recording which CSS
selectors resolve to an element, whether the persisted `state.json`
exists, whether navigation raises, which local paths exist, and what the
notebook pane renders.  Every embedded operation returns its result
together with a trace of the browser-capability calls it performed, so
that "no browser call happens" and "state is persisted / browser is
closed" are statable.
-/

namespace NotebookLM

/-- Contiguous-sublist test on character lists. -/
def infixOf (needle : List Char) : List Char → Bool
  | [] => needle.isEmpty
  | c :: t => needle.isPrefixOf (c :: t) || infixOf needle t

/-- Python `needle in haystack` substring test on strings. -/
def pyIn (needle haystack : String) : Bool :=
  infixOf needle.toList haystack.toList

/-- One cookie of the persisted storage state; `c.get('domain', '')`
yields `""` when the key is absent, hence an `Option`. -/
structure Cookie where
  domain : Option String
deriving DecidableEq, Repr

/-- The observable states of the persisted `state.json` file as seen by
`check_auth_status`: absent, present but raising on `json.load` /
attribute access (the message is `str(e)`), or parsed with a cookie
list (`state.get('cookies', [])`). -/
inductive StateFile
  | absent
  | unparsable (e : String)
  | parsed (cookies : List Cookie)
deriving DecidableEq, Repr

/-- Result dictionary of `check_auth_status`; `cookie_count` is present
only on the authenticated branch. -/
structure AuthResult where
  authenticated : Bool
  message : String
  cookie_count : Option Nat
deriving DecidableEq, Repr

/-- `[c for c in cookies if 'google' in c.get('domain', '')]` -/
def googleCookies (cookies : List Cookie) : List Cookie :=
  cookies.filter (fun c => pyIn ("google") (c.domain.getD ""))

/-- `check_auth_status` from `notebooklm_auth.py`, lines 27-60. -/
def check_auth_status : StateFile → AuthResult
  | .absent =>
      ⟨false, "No authentication state found. Run authentication first.", none⟩
  | .unparsable e =>
      ⟨false, "Error reading state: " ++ e, none⟩
  | .parsed cookies =>
      let google_cookies := googleCookies cookies
      if google_cookies.isEmpty then
        ⟨false, "No Google cookies found in state. Re-authenticate.", none⟩
      else
        ⟨true, "Authentication state found.", some google_cookies.length⟩

/-- A notebook card element; `elemId` stands for the identity of the
live element handle, `titleEl` for the optional title sub-element's
inner text. -/
structure Card where
  elemId : Nat
  titleEl : Option String
deriving DecidableEq, Repr

/-- What the notebook pane shows `get_notebooks`: either the 10-second
wait for the card selector expires (`PlaywrightTimeout`), or a list of
card elements is there. -/
inductive NotebookPane
  | timeout
  | cards (cs : List Card)
deriving DecidableEq, Repr

/-- Entry of the list built by `get_notebooks`: title plus the card
element handle. -/
structure Notebook where
  title : String
  element : Card
deriving DecidableEq, Repr

/-- A source-request dictionary: both `type` and `value` keys may be
absent (`source.get('type', 'website')`, `source.get('value', '')`). -/
structure Src where
  type? : Option String
  value? : Option String
deriving DecidableEq, Repr

/-- One entry of the `failed` list of an upload result. -/
structure Failed where
  value : String
  error : String
deriving DecidableEq, Repr

/-- Per-source result dictionary of `add_website_source` /
`add_file_source` (and the unknown-type branch). -/
structure SrcResult where
  success : Bool
  error : Option String
  url : Option String
  file : Option String
deriving DecidableEq, Repr

/-- Result dictionary of `upload_sources`; the early not-authenticated
return carries only `success` and `error`, hence the `Option` fields. -/
structure UploadResult where
  success : Bool
  notebook : Option String
  uploaded : Option (List String)
  failed : Option (List Failed)
  error : Option String
deriving DecidableEq, Repr

/-- Result dictionary of `list_notebooks`. -/
structure ListResult where
  success : Bool
  notebooks : Option (List String)
  count : Option Nat
  error : Option String
deriving DecidableEq, Repr

/-- Trace events: the calls made against the browser-automation
capability and the state file. -/
inductive Ev
  | launch
  | newContext
  | newPage
  | gotoUrl (u : String)
  | waitForLoad
  | waitForSelector (sel : String)
  | querySelector (sel : String)
  | querySelectorAll (sel : String)
  | click (sel : String)
  | clickElem (id : Nat)
  | fill (sel : String) (v : String)
  | press (k : String)
  | setInputFiles (p : String)
  | createAttempt
  | storageState
  | closeBrowser
deriving DecidableEq, Repr

/-- The modelled world: whether `state.json` exists, whether
`page.goto`/`wait_for_load_state` raises (and with what message), which
selectors `query_selector` resolves, what the notebook pane shows, and
which local paths exist. -/
structure Env where
  stateExists : Bool
  navError : Option String
  query : String → Bool
  pane : NotebookPane
  pathExists : String → Bool

def selNotebookCard : String := "[data-test-id=\"notebook-card\"]"
def selNotebookTitle : String := "[data-test-id=\"notebook-title\"]"
def selCreateBtn1 : String := "button:has-text(\"Create new\")"
def selCreateBtn2 : String := "[data-test-id=\"create-notebook-button\"]"
def selNameInput : String := "input[placeholder*=\"name\"]"
def selAddBtn1 : String := "button:has-text(\"Add source\")"
def selAddBtn2 : String := "[data-test-id=\"add-source-button\"]"
def selWebsiteOpt1 : String := "button:has-text(\"Website\")"
def selWebsiteOpt2 : String := "[data-test-id=\"source-type-website\"]"
def selUrlInput1 : String := "input[type=\"url\"], input[placeholder*=\"URL\"]"
def selUrlInput2 : String := "[data-test-id=\"website-url-input\"]"
def selUploadOpt1 : String := "button:has-text(\"Upload\")"
def selUploadOpt2 : String := "[data-test-id=\"source-type-upload\"]"
def selFileInput : String := "input[type=\"file\"]"

def notebooklmUrl : String := "https://notebooklm.google.com/"

def msgNotAuth : String := "Not authenticated. Run authentication first."
def msgNoCreate : String := "Could not create notebook"
def msgNoAddBtn : String := "Could not find Add Source button"
def msgNoWebsiteOpt : String := "Could not find Website option"
def msgNoUrlInput : String := "Could not find URL input"
def msgNoFileInput : String := "Could not find file input"
def msgUnknownErr : String := "Unknown error"

/-- The recurring `x = query_selector(s1); if not x: x = query_selector(s2)`
pattern: returns the selector that located the element (standing for the
element handle) and the query events issued. -/
def locate2 (env : Env) (s1 s2 : String) : Option String × List Ev :=
  if env.query s1 then (some s1, [Ev.querySelector s1])
  else if env.query s2 then (some s2, [Ev.querySelector s1, Ev.querySelector s2])
  else (none, [Ev.querySelector s1, Ev.querySelector s2])

/-- `get_notebooks` from `notebooklm_upload.py`, lines 28-50: on wait
timeout return `[]`; otherwise one notebook per card, title defaulting
to `"Untitled"` when the title element is missing. -/
def get_notebooks (env : Env) : List Notebook × List Ev :=
  match env.pane with
  | .timeout => ([], [Ev.waitForSelector selNotebookCard])
  | .cards cs =>
      (cs.map (fun c => ⟨c.titleEl.getD ("Untitled"), c⟩),
       Ev.waitForSelector selNotebookCard :: Ev.querySelectorAll selNotebookCard ::
         cs.map (fun _ => Ev.querySelector selNotebookTitle))

/-- `create_notebook` from `notebooklm_upload.py`, lines 53-76: click a
creation control (two strategies), optionally fill a name prompt, return
`True`; `False` when no creation control is found.  `Ev.createAttempt`
instruments the entry of the function. -/
def create_notebook (env : Env) (name : String) : Bool × List Ev :=
  let e1 := (locate2 env selCreateBtn1 selCreateBtn2).2
  match (locate2 env selCreateBtn1 selCreateBtn2).1 with
  | none => (false, Ev.createAttempt :: e1)
  | some bsel =>
      if env.query selNameInput then
        (true, Ev.createAttempt :: e1 ++
          [Ev.click bsel, Ev.querySelector selNameInput,
           Ev.fill selNameInput name, Ev.press ("Enter")])
      else
        (true, Ev.createAttempt :: e1 ++
          [Ev.click bsel, Ev.querySelector selNameInput])

/-- `add_website_source` from `notebooklm_upload.py`, lines 79-121. -/
def add_website_source (env : Env) (url : String) : SrcResult × List Ev :=
  let e1 := (locate2 env selAddBtn1 selAddBtn2).2
  match (locate2 env selAddBtn1 selAddBtn2).1 with
  | none => (⟨false, some msgNoAddBtn, none, none⟩, e1)
  | some bsel =>
      let e1 := e1 ++ [Ev.click bsel]
      let e2 := (locate2 env selWebsiteOpt1 selWebsiteOpt2).2
      match (locate2 env selWebsiteOpt1 selWebsiteOpt2).1 with
      | none => (⟨false, some msgNoWebsiteOpt, none, none⟩, e1 ++ e2)
      | some osel =>
          let e2 := e2 ++ [Ev.click osel]
          let e3 := (locate2 env selUrlInput1 selUrlInput2).2
          match (locate2 env selUrlInput1 selUrlInput2).1 with
          | none => (⟨false, some msgNoUrlInput, none, none⟩, e1 ++ e2 ++ e3)
          | some isel =>
              (⟨true, none, some url, none⟩,
               e1 ++ e2 ++ e3 ++ [Ev.fill isel url, Ev.press ("Enter")])

/-- `add_file_source` from `notebooklm_upload.py`, lines 124-160: the
local-path existence check comes first and returns before any UI call;
the "Upload" option is clicked only if found (it is skipped when
absent); the file input has a single selector strategy. -/
def add_file_source (env : Env) (file_path : String) : SrcResult × List Ev :=
  if env.pathExists file_path = false then
    (⟨false, some ("File not found: " ++ file_path), none, none⟩, [])
  else
    let e1 := (locate2 env selAddBtn1 selAddBtn2).2
    match (locate2 env selAddBtn1 selAddBtn2).1 with
    | none => (⟨false, some msgNoAddBtn, none, none⟩, e1)
    | some bsel =>
        let e1 := e1 ++ [Ev.click bsel]
        let e2 := match (locate2 env selUploadOpt1 selUploadOpt2).1 with
          | some osel => (locate2 env selUploadOpt1 selUploadOpt2).2 ++ [Ev.click osel]
          | none => (locate2 env selUploadOpt1 selUploadOpt2).2
        if env.query selFileInput then
          (⟨true, none, none, some file_path⟩,
           e1 ++ e2 ++ [Ev.querySelector selFileInput, Ev.setInputFiles file_path])
        else
          (⟨false, some msgNoFileInput, none, none⟩,
           e1 ++ e2 ++ [Ev.querySelector selFileInput])

/-- Body of the per-source dispatch inside `upload_sources`, lines
214-223: defaulted `type`/`value`, dispatch on `type`, unknown types
yield a failure dictionary. -/
def perSource (env : Env) (s : Src) : SrcResult × List Ev :=
  let source_type := s.type?.getD ("website")
  let value := s.value?.getD ""
  if source_type == "website" then add_website_source env value
  else if source_type == "file" then add_file_source env value
  else (⟨false, some ("Unknown source type: " ++ source_type), none, none⟩, [])

/-- The per-source loop of `upload_sources`, lines 214-234: one outcome
per request, appended to `uploaded` (the request's `value`) or to
`failed` (`value` plus `result.get('error', 'Unknown error')`). -/
def runSources (env : Env) : List Src → (List String × List Failed) × List Ev
  | [] => (([], []), [])
  | s :: rest =>
      let r := (perSource env s).1
      let evs := (perSource env s).2
      let value := s.value?.getD ""
      let up := (runSources env rest).1.1
      let fl := (runSources env rest).1.2
      let evs2 := (runSources env rest).2
      if r.success then ((value :: up, fl), evs ++ evs2)
      else ((up, ⟨value, r.error.getD msgUnknownErr⟩ :: fl), evs ++ evs2)

/-- Python `str.lower()` (ASCII case folding, character by character). -/
def pyLower (s : String) : String :=
  ⟨s.data.map Char.toLower⟩

/-- The title comparison of the notebook-resolver loop, line 198:
`nb['title'].lower() == notebook_name.lower()`. -/
def matchesName (name : String) (nb : Notebook) : Bool :=
  pyLower nb.title == pyLower name

/-- `upload_sources` from `notebooklm_upload.py`, lines 163-245:
fail fast when `state.json` is absent; otherwise launch the browser,
navigate (a raised exception is caught at the boundary), resolve or
create the notebook, run the per-source loop, and in the `finally`
block persist the storage state and close the browser. -/
def upload_sources (env : Env) (notebook_name : String) (sources : List Src) :
    UploadResult × List Ev :=
  if env.stateExists = false then
    (⟨false, none, none, none, some msgNotAuth⟩, [])
  else
    let openEvs := [Ev.launch, Ev.newContext, Ev.newPage]
    match env.navError with
    | some e =>
        (⟨false, some notebook_name, some [], some [], some e⟩,
         openEvs ++ [Ev.gotoUrl notebooklmUrl, Ev.storageState, Ev.closeBrowser])
    | none =>
        let navEvs := openEvs ++ [Ev.gotoUrl notebooklmUrl, Ev.waitForLoad]
        let gevs := (get_notebooks env).2
        match ((get_notebooks env).1).find? (matchesName notebook_name) with
        | some nb =>
            (⟨true, some notebook_name, some (runSources env sources).1.1,
               some (runSources env sources).1.2, none⟩,
             navEvs ++ gevs ++ [Ev.clickElem nb.element.elemId] ++
               (runSources env sources).2 ++ [Ev.storageState, Ev.closeBrowser])
        | none =>
            let cevs := (create_notebook env notebook_name).2
            if (create_notebook env notebook_name).1 then
              (⟨true, some notebook_name, some (runSources env sources).1.1,
                 some (runSources env sources).1.2, none⟩,
               navEvs ++ gevs ++ cevs ++ (runSources env sources).2 ++
                 [Ev.storageState, Ev.closeBrowser])
            else
              (⟨false, some notebook_name, some [], some [], some msgNoCreate⟩,
               navEvs ++ gevs ++ cevs ++ [Ev.storageState, Ev.closeBrowser])

/-- `list_notebooks` from `notebooklm_upload.py`, lines 248-282: fail
fast when `state.json` is absent; otherwise navigate, list notebooks and
return their titles; the `finally` block closes the browser (and does
not persist the storage state). -/
def list_notebooks (env : Env) : ListResult × List Ev :=
  if env.stateExists = false then
    (⟨false, none, none, some msgNotAuth⟩, [])
  else
    let openEvs := [Ev.launch, Ev.newContext, Ev.newPage]
    match env.navError with
    | some e =>
        (⟨false, none, none, some e⟩,
         openEvs ++ [Ev.gotoUrl notebooklmUrl, Ev.closeBrowser])
    | none =>
        let titles := ((get_notebooks env).1).map (fun nb => nb.title)
        (⟨true, some titles, some titles.length, none⟩,
         openEvs ++ [Ev.gotoUrl notebooklmUrl, Ev.waitForLoad] ++
           (get_notebooks env).2 ++ [Ev.closeBrowser])

/-! ### Helper lemmas -/

theorem append_length_ne_empty (s t : String) (hs : s.length ≠ 0) : s ++ t ≠ "" := by
  intro h
  have h2 := congrArg String.length h
  simp [String.length_append] at h2
  omega

/-- Claim C1: `check_auth_status` returns `authenticated = true` exactly
when the state file parses and at least one cookie's domain contains
`"google"`; in that case `cookie_count` is the exact number of such
cookies; every not-authenticated result carries a nonempty
human-readable message (no exception escapes: the embedding is total,
every file state maps to a structured result). -/
theorem check_auth_status_correct (f : StateFile) :
    ((check_auth_status f).authenticated = true ↔
      ∃ cs, f = StateFile.parsed cs ∧ googleCookies cs ≠ [])
    ∧ (∀ cs, f = StateFile.parsed cs → googleCookies cs ≠ [] →
        (check_auth_status f).cookie_count = some (googleCookies cs).length)
    ∧ ((check_auth_status f).authenticated = false →
        (check_auth_status f).message ≠ "") := by
  cases f with
  | absent =>
      refine ⟨by simp [check_auth_status], by simp [check_auth_status], ?_⟩
      intro _
      simp [check_auth_status]
  | unparsable e =>
      refine ⟨by simp [check_auth_status], by simp [check_auth_status], ?_⟩
      intro _
      exact append_length_ne_empty _ e (by decide)
  | parsed cs =>
      by_cases hgc : googleCookies cs = []
      · refine ⟨?_, ?_, ?_⟩
        · simp [check_auth_status, hgc]
        · intro cs2 hcs2 hne
          cases hcs2
          exact absurd hgc hne
        · intro _
          simp [check_auth_status, hgc]
      · refine ⟨?_, ?_, ?_⟩
        · constructor
          · intro _
            exact ⟨cs, rfl, hgc⟩
          · intro _
            simp [check_auth_status, hgc]
        · intro cs2 hcs2 _
          cases hcs2
          simp [check_auth_status, hgc]
        · intro hfalse
          simp [check_auth_status, hgc] at hfalse

theorem check_auth_status_correct_witness :
    (StateFile.parsed [⟨some (".google.com")⟩, ⟨some ("example.org")⟩]
        = StateFile.parsed [⟨some (".google.com")⟩, ⟨some ("example.org")⟩])
    ∧ (check_auth_status
        (StateFile.parsed [⟨some (".google.com")⟩, ⟨some ("example.org")⟩])).authenticated
        = true
    ∧ (check_auth_status
        (StateFile.parsed [⟨some (".google.com")⟩, ⟨some ("example.org")⟩])).cookie_count
        = some 1 := by
  refine ⟨rfl, ?_, ?_⟩
  · exact (check_auth_status_correct _).1.mpr ⟨_, rfl, by decide⟩
  · have h := (check_auth_status_correct
      (StateFile.parsed [⟨some (".google.com")⟩, ⟨some ("example.org")⟩])).2.1
      [⟨some (".google.com")⟩, ⟨some ("example.org")⟩] rfl (by decide)
    simpa using h

/-- An environment with no persisted state file. -/
def envNoState : Env := ⟨false, none, fun _ => false, NotebookPane.timeout, fun _ => false⟩

/-- An environment where everything works: state present, navigation
fine, every selector resolves, a notebook pane with cards, every local
path present. -/
def envAllGood : Env := ⟨true, none, fun _ => true, NotebookPane.cards [], fun _ => true⟩

/-- `envAllGood` except that no local path exists. -/
def envNoPath : Env := ⟨true, none, fun _ => true, NotebookPane.cards [], fun _ => false⟩

/-- Claim C5: when the persisted state file is absent, both
`upload_sources` and `list_notebooks` return the structured
not-authenticated error before any browser-capability call: the trace
is empty. -/
theorem not_authenticated_short_circuit (env : Env) (name : String) (srcs : List Src)
    (h : env.stateExists = false) :
    (upload_sources env name srcs).1.success = false
    ∧ (upload_sources env name srcs).1.error
        = some ("Not authenticated. Run authentication first.")
    ∧ (upload_sources env name srcs).2 = []
    ∧ (list_notebooks env).1.success = false
    ∧ (list_notebooks env).1.error
        = some ("Not authenticated. Run authentication first.")
    ∧ (list_notebooks env).2 = [] := by
  refine ⟨?_, ?_, ?_, ?_, ?_, ?_⟩ <;>
    simp [upload_sources, list_notebooks, h, msgNotAuth]

theorem not_authenticated_short_circuit_witness :
    envNoState.stateExists = false
    ∧ ((upload_sources envNoState ("My Notes") []).1.success = false
       ∧ (upload_sources envNoState ("My Notes") []).1.error
           = some ("Not authenticated. Run authentication first.")
       ∧ (upload_sources envNoState ("My Notes") []).2 = []
       ∧ (list_notebooks envNoState).1.success = false
       ∧ (list_notebooks envNoState).1.error
           = some ("Not authenticated. Run authentication first.")
       ∧ (list_notebooks envNoState).2 = []) :=
  ⟨rfl, not_authenticated_short_circuit envNoState ("My Notes") [] rfl⟩

/-- Claim C7: a file-type source whose path does not exist fails with
`File not found: <path>` and performs no UI call at all (empty trace):
the existence check precedes every element lookup. -/
theorem add_file_source_missing_file (env : Env) (p : String)
    (h : env.pathExists p = false) :
    (add_file_source env p).1.success = false
    ∧ (add_file_source env p).1.error = some ("File not found: " ++ p)
    ∧ (add_file_source env p).2 = [] := by
  refine ⟨?_, ?_, ?_⟩ <;> simp [add_file_source, h]

theorem add_file_source_missing_file_witness :
    envNoPath.pathExists ("missing.pdf") = false
    ∧ ((add_file_source envNoPath ("missing.pdf")).1.success = false
       ∧ (add_file_source envNoPath ("missing.pdf")).1.error
           = some ("File not found: " ++ "missing.pdf")
       ∧ (add_file_source envNoPath ("missing.pdf")).2 = []) :=
  ⟨rfl, add_file_source_missing_file envNoPath ("missing.pdf") rfl⟩

/-- Claim C8: when the 10-second wait for the notebook-card selector
expires, `get_notebooks` yields the empty list (and `list_notebooks`
reports it as a successful empty listing, not an error); when cards are
found, each title is the title element's text, defaulting to
`"Untitled"` when that element is missing. -/
theorem get_notebooks_timeout_and_titles (env : Env) :
    (env.pane = NotebookPane.timeout → (get_notebooks env).1 = [])
    ∧ (∀ cs, env.pane = NotebookPane.cards cs →
        ((get_notebooks env).1).map Notebook.title
          = cs.map (fun c => c.titleEl.getD ("Untitled")))
    ∧ (env.pane = NotebookPane.timeout → env.stateExists = true →
        env.navError = none →
        (list_notebooks env).1 = ⟨true, some [], some 0, none⟩) := by
  refine ⟨?_, ?_, ?_⟩
  · intro h
    simp [get_notebooks, h]
  · intro cs h
    simp [get_notebooks, h]
  · intro hpane hstate hnav
    simp [list_notebooks, get_notebooks, hpane, hstate, hnav]

theorem get_notebooks_timeout_and_titles_witness :
    envAllGood.pane = NotebookPane.cards []
    ∧ ((get_notebooks envAllGood).1).map Notebook.title = []
    ∧ ((get_notebooks { envAllGood with
          pane := NotebookPane.cards [⟨0, none⟩, ⟨1, some ("My Notes")⟩] }).1).map
        Notebook.title = ["Untitled", "My Notes"]
    ∧ (list_notebooks { envAllGood with pane := NotebookPane.timeout }).1
        = ⟨true, some [], some 0, none⟩ := by
  refine ⟨rfl, ?_, ?_, ?_⟩
  · simpa using (get_notebooks_timeout_and_titles envAllGood).2.1 [] rfl
  · simpa using (get_notebooks_timeout_and_titles { envAllGood with
      pane := NotebookPane.cards [⟨0, none⟩, ⟨1, some ("My Notes")⟩] }).2.1
      [⟨0, none⟩, ⟨1, some ("My Notes")⟩] rfl
  · exact (get_notebooks_timeout_and_titles { envAllGood with
      pane := NotebookPane.timeout }).2.2 rfl rfl rfl

/-! ### Characterization of the per-source loop -/

theorem runSources_uploaded (env : Env) (srcs : List Src) :
    (runSources env srcs).1.1 =
      (srcs.filter (fun s => (perSource env s).1.success)).map
        (fun s => s.value?.getD "") := by
  induction srcs with
  | nil => rfl
  | cons s rest ih =>
      cases h : (perSource env s).1.success <;>
        simp [runSources, h, ih, List.filter_cons]

theorem runSources_failed (env : Env) (srcs : List Src) :
    (runSources env srcs).1.2 =
      (srcs.filter (fun s => !(perSource env s).1.success)).map
        (fun s => ⟨s.value?.getD "", (perSource env s).1.error.getD msgUnknownErr⟩) := by
  induction srcs with
  | nil => rfl
  | cons s rest ih =>
      cases h : (perSource env s).1.success <;>
        simp [runSources, h, ih, List.filter_cons]

theorem runSources_total (env : Env) (srcs : List Src) :
    (runSources env srcs).1.1.length + (runSources env srcs).1.2.length
      = srcs.length := by
  induction srcs with
  | nil => rfl
  | cons s rest ih =>
      cases h : (perSource env s).1.success <;>
        simp [runSources, h] <;> omega

/-- The four possible result dictionaries of `add_website_source`. -/
theorem add_website_source_cases (env : Env) (url : String) :
    (add_website_source env url).1 = ⟨true, none, some url, none⟩
    ∨ (add_website_source env url).1 = ⟨false, some msgNoAddBtn, none, none⟩
    ∨ (add_website_source env url).1 = ⟨false, some msgNoWebsiteOpt, none, none⟩
    ∨ (add_website_source env url).1 = ⟨false, some msgNoUrlInput, none, none⟩ := by
  unfold add_website_source
  rcases h1 : (locate2 env selAddBtn1 selAddBtn2).1 with _ | b
  · simp
  · rcases h2 : (locate2 env selWebsiteOpt1 selWebsiteOpt2).1 with _ | o
    · simp
    · rcases h3 : (locate2 env selUrlInput1 selUrlInput2).1 with _ | i
      · simp
      · simp

/-- The four possible result dictionaries of `add_file_source`. -/
theorem add_file_source_cases (env : Env) (p : String) :
    (add_file_source env p).1 = ⟨true, none, none, some p⟩
    ∨ (add_file_source env p).1 = ⟨false, some ("File not found: " ++ p), none, none⟩
    ∨ (add_file_source env p).1 = ⟨false, some msgNoAddBtn, none, none⟩
    ∨ (add_file_source env p).1 = ⟨false, some msgNoFileInput, none, none⟩ := by
  unfold add_file_source
  cases hp : env.pathExists p
  · simp [hp]
  · rcases h1 : (locate2 env selAddBtn1 selAddBtn2).1 with _ | b
    · simp [hp, h1]
    · cases hf : env.query selFileInput <;> simp [hp, h1, hf]

/-- Every dispatched per-source result either succeeds or carries a
nonempty error string. -/
theorem perSource_cases (env : Env) (s : Src) :
    (perSource env s).1.success = true
    ∨ ∃ m, (perSource env s).1.error = some m ∧ m ≠ "" := by
  simp only [perSource]
  split
  · rcases add_website_source_cases env (s.value?.getD "") with h4 | h4 | h4 | h4 <;>
      rw [h4]
    · exact Or.inl rfl
    · exact Or.inr ⟨_, rfl, by decide⟩
    · exact Or.inr ⟨_, rfl, by decide⟩
    · exact Or.inr ⟨_, rfl, by decide⟩
  · split
    · rcases add_file_source_cases env (s.value?.getD "") with h4 | h4 | h4 | h4 <;>
        rw [h4]
      · exact Or.inl rfl
      · exact Or.inr ⟨_, rfl, append_length_ne_empty _ _ (by decide)⟩
      · exact Or.inr ⟨_, rfl, by decide⟩
      · exact Or.inr ⟨_, rfl, by decide⟩
    · exact Or.inr ⟨_, rfl, append_length_ne_empty _ _ (by decide)⟩

/-- Every per-source failure carries a nonempty error string. -/
theorem perSource_failure_error_ne (env : Env) (s : Src)
    (h : (perSource env s).1.success = false) :
    (perSource env s).1.error.getD msgUnknownErr ≠ "" := by
  rcases perSource_cases env s with hs | ⟨m, hm, hne⟩
  · rw [h] at hs
    exact absurd hs (by decide)
  · rw [hm]
    simpa using hne

/-- When the state file exists, navigation succeeds, and a notebook is
found or created, `upload_sources` returns the per-source loop's
aggregates with top-level success. -/
theorem upload_sources_loop (env : Env) (name : String) (srcs : List Src)
    (hstate : env.stateExists = true) (hnav : env.navError = none)
    (hres : ((get_notebooks env).1).find? (matchesName name) ≠ none
            ∨ (create_notebook env name).1 = true) :
    (upload_sources env name srcs).1.success = true
    ∧ (upload_sources env name srcs).1.uploaded = some (runSources env srcs).1.1
    ∧ (upload_sources env name srcs).1.failed = some (runSources env srcs).1.2 := by
  cases hfind : ((get_notebooks env).1).find? (matchesName name) with
  | some nb => simp [upload_sources, hstate, hnav, hfind]
  | none =>
      have hcr : (create_notebook env name).1 = true := by
        rcases hres with hres | hres
        · exact absurd hfind hres
        · exact hres
      simp [upload_sources, hstate, hnav, hfind, hcr]

/-- Claim C3: in a batch `pre ++ bad :: post` where every request in
`pre` and `post` succeeds and `bad` fails, `upload_sources` records one
outcome per request, continues past the failure, returns `uploaded` of
length N-1 (the values of `pre ++ post` in order), and `failed` holds
exactly the one entry with `bad`'s value and a nonempty error string. -/
theorem upload_sources_partial_failure (env : Env) (name : String)
    (pre post : List Src) (bad : Src)
    (hstate : env.stateExists = true) (hnav : env.navError = none)
    (hres : ((get_notebooks env).1).find? (matchesName name) ≠ none
            ∨ (create_notebook env name).1 = true)
    (hpre : ∀ s ∈ pre, (perSource env s).1.success = true)
    (hpost : ∀ s ∈ post, (perSource env s).1.success = true)
    (hbad : (perSource env bad).1.success = false) :
    (upload_sources env name (pre ++ bad :: post)).1.uploaded
        = some ((pre ++ post).map (fun s => s.value?.getD ""))
    ∧ ((upload_sources env name (pre ++ bad :: post)).1.uploaded.getD []).length
        = (pre ++ bad :: post).length - 1
    ∧ (∃ e, (upload_sources env name (pre ++ bad :: post)).1.failed
          = some [⟨bad.value?.getD "", e⟩] ∧ e ≠ "")
    ∧ ((upload_sources env name (pre ++ bad :: post)).1.uploaded.getD []).length
        + ((upload_sources env name (pre ++ bad :: post)).1.failed.getD []).length
        = (pre ++ bad :: post).length := by
  obtain ⟨hsucc, hup, hfl⟩ := upload_sources_loop env name (pre ++ bad :: post)
    hstate hnav hres
  have hupv : (runSources env (pre ++ bad :: post)).1.1
      = (pre ++ post).map (fun s => s.value?.getD "") := by
    rw [runSources_uploaded]
    have e1 : pre.filter (fun s => (perSource env s).1.success) = pre :=
      List.filter_eq_self.mpr hpre
    have e2 : post.filter (fun s => (perSource env s).1.success) = post :=
      List.filter_eq_self.mpr hpost
    simp [List.filter_append, List.filter_cons, hbad, e1, e2]
  have hflv : (runSources env (pre ++ bad :: post)).1.2
      = [⟨bad.value?.getD "",
          (perSource env bad).1.error.getD msgUnknownErr⟩] := by
    rw [runSources_failed]
    have e1 : pre.filter (fun s => !(perSource env s).1.success) = [] := by
      rw [List.filter_eq_nil_iff]
      intro a ha
      simp [hpre a ha]
    have e2 : post.filter (fun s => !(perSource env s).1.success) = [] := by
      rw [List.filter_eq_nil_iff]
      intro a ha
      simp [hpost a ha]
    simp [List.filter_append, List.filter_cons, hbad, e1, e2]
  refine ⟨?_, ?_, ?_, ?_⟩
  · rw [hup, hupv]
  · rw [hup, hupv]
    simp [List.length_append]
  · exact ⟨(perSource env bad).1.error.getD msgUnknownErr,
      by rw [hfl, hflv], perSource_failure_error_ne env bad hbad⟩
  · rw [hup, hfl]
    simp only [Option.getD_some]
    rw [runSources_total]

theorem upload_sources_partial_failure_witness :
    envNoPath.stateExists = true
    ∧ envNoPath.navError = none
    ∧ (create_notebook envNoPath ("Research")).1 = true
    ∧ (∀ s ∈ [Src.mk (some ("website")) (some ("http://a.example"))],
        (perSource envNoPath s).1.success = true)
    ∧ (∀ s ∈ [Src.mk (some ("website")) (some ("http://b.example"))],
        (perSource envNoPath s).1.success = true)
    ∧ (perSource envNoPath (Src.mk (some ("file")) (some ("notes.pdf")))).1.success
        = false
    ∧ ((upload_sources envNoPath ("Research")
          [Src.mk (some ("website")) (some ("http://a.example")),
           Src.mk (some ("file")) (some ("notes.pdf")),
           Src.mk (some ("website")) (some ("http://b.example"))]).1.uploaded.getD
        []).length = 2 := by
  refine ⟨rfl, rfl, by decide, by decide, by decide, by decide, ?_⟩
  have h := upload_sources_partial_failure envNoPath ("Research")
    [Src.mk (some ("website")) (some ("http://a.example"))]
    [Src.mk (some ("website")) (some ("http://b.example"))]
    (Src.mk (some ("file")) (some ("notes.pdf")))
    rfl rfl (Or.inr (by decide)) (by decide) (by decide) (by decide)
  simpa using h.2.1

/-- `envAllGood` except that no selector resolves to any element. -/
def envNothingFound : Env :=
  ⟨true, none, fun _ => false, NotebookPane.cards [], fun _ => true⟩

/-- Claim C9: with the state file present, the top-level `success` of
`upload_sources` is `false` exactly when navigation raised at the
orchestration boundary, or no notebook title matched and creation
failed; per-source failures never clear the top-level flag. -/
theorem upload_sources_success_flag (env : Env) (name : String) (srcs : List Src)
    (hstate : env.stateExists = true) :
    (upload_sources env name srcs).1.success = false ↔
      (env.navError ≠ none
       ∨ (((get_notebooks env).1).find? (matchesName name) = none
          ∧ (create_notebook env name).1 = false)) := by
  cases hnav : env.navError with
  | some e => simp [upload_sources, hstate, hnav]
  | none =>
      cases hfind : ((get_notebooks env).1).find? (matchesName name) with
      | some nb => simp [upload_sources, hstate, hnav, hfind]
      | none =>
          cases hcr : (create_notebook env name).1 <;>
            simp [upload_sources, hstate, hnav, hfind, hcr]

theorem upload_sources_success_flag_witness :
    envNothingFound.stateExists = true
    ∧ (upload_sources envNothingFound ("Research")
        [Src.mk (some ("website")) (some ("http://a.example"))]).1.success = false
    ∧ (upload_sources envNoPath ("Research")
        [Src.mk (some ("file")) (some ("gone.pdf"))]).1.success = true := by
  refine ⟨rfl, ?_, ?_⟩
  · exact (upload_sources_success_flag envNothingFound ("Research")
      [Src.mk (some ("website")) (some ("http://a.example"))] rfl).mpr
      (Or.inr ⟨by decide, by decide⟩)
  · have h := upload_sources_success_flag envNoPath ("Research")
      [Src.mk (some ("file")) (some ("gone.pdf"))] rfl
    cases hsucc : (upload_sources envNoPath ("Research")
        [Src.mk (some ("file")) (some ("gone.pdf"))]).1.success
    · exact absurd (h.mp hsucc) (by decide)
    · rfl

/-- Claim C10: a missing `type` key is dispatched as `website`, a
missing `value` key as the empty string; an unknown type is not
rejected up front but yields a failed entry `Unknown source type: <t>`
while the loop still produces one outcome for every other request. -/
theorem source_dispatch_defaults (env : Env) (t v : String) (ov : Option String)
    (pre post : List Src)
    (ht : t ≠ "website") (hf : t ≠ "file") :
    perSource env (Src.mk none ov) = perSource env (Src.mk (some ("website")) ov)
    ∧ (∀ ot, perSource env (Src.mk ot none) = perSource env (Src.mk ot (some "")))
    ∧ (perSource env (Src.mk (some t) (some v))).1
        = ⟨false, some ("Unknown source type: " ++ t), none, none⟩
    ∧ Failed.mk v ("Unknown source type: " ++ t)
        ∈ (runSources env (pre ++ Src.mk (some t) (some v) :: post)).1.2
    ∧ (runSources env (pre ++ Src.mk (some t) (some v) :: post)).1.1.length
        + (runSources env (pre ++ Src.mk (some t) (some v) :: post)).1.2.length
        = pre.length + post.length + 1 := by
  have hdisp : (perSource env (Src.mk (some t) (some v))).1
      = ⟨false, some ("Unknown source type: " ++ t), none, none⟩ := by
    simp [perSource, ht, hf]
  refine ⟨rfl, fun ot => rfl, hdisp, ?_, ?_⟩
  · rw [runSources_failed]
    apply List.mem_map.mpr
    refine ⟨Src.mk (some t) (some v), List.mem_filter.mpr ⟨by simp, ?_⟩, ?_⟩
    · rw [hdisp]
      rfl
    · simp [hdisp]
  · rw [runSources_total]
    simp [List.length_append]
    omega

theorem source_dispatch_defaults_witness :
    ("rss" ≠ "website" ∧ "rss" ≠ "file")
    ∧ Failed.mk ("http://a.example") ("Unknown source type: " ++ "rss")
        ∈ (runSources envAllGood
            [Src.mk (some ("website")) (some ("http://w.example")),
             Src.mk (some ("rss")) (some ("http://a.example"))]).1.2
    ∧ (runSources envAllGood
        [Src.mk (some ("website")) (some ("http://w.example")),
         Src.mk (some ("rss")) (some ("http://a.example"))]).1.1.length
      + (runSources envAllGood
          [Src.mk (some ("website")) (some ("http://w.example")),
           Src.mk (some ("rss")) (some ("http://a.example"))]).1.2.length = 2 := by
  have h := source_dispatch_defaults envAllGood ("rss") ("http://a.example")
    (some ("http://a.example"))
    [Src.mk (some ("website")) (some ("http://w.example"))] []
    (by decide) (by decide)
  exact ⟨⟨by decide, by decide⟩, h.2.2.2.1, h.2.2.2.2⟩

/-! ### Event classification: the per-source and listing helpers only
touch the page (locate/click/fill); they never create a notebook,
persist state, or manage the browser lifecycle. -/

/-- Events that operate on the current page only. -/
def uiOnly : Ev → Bool
  | .waitForSelector _ => true
  | .querySelector _ => true
  | .querySelectorAll _ => true
  | .click _ => true
  | .clickElem _ => true
  | .fill _ _ => true
  | .press _ => true
  | .setInputFiles _ => true
  | _ => false

theorem locate2_uiOnly (env : Env) (s1 s2 : String) :
    ∀ e ∈ (locate2 env s1 s2).2, uiOnly e = true := by
  intro e he
  unfold locate2 at he
  split at he
  · simp at he
    subst he
    rfl
  · split at he <;> simp at he <;> rcases he with rfl | rfl <;> rfl

theorem get_notebooks_uiOnly (env : Env) :
    ∀ e ∈ (get_notebooks env).2, uiOnly e = true := by
  intro e he
  unfold get_notebooks at he
  cases hp : env.pane with
  | timeout =>
      rw [hp] at he
      simp at he
      subst he
      rfl
  | cards cs =>
      rw [hp] at he
      simp at he
      rcases he with rfl | rfl | ⟨c, hc, rfl⟩ <;> rfl

theorem uiOnly_append {l1 l2 : List Ev}
    (h1 : ∀ e ∈ l1, uiOnly e = true) (h2 : ∀ e ∈ l2, uiOnly e = true) :
    ∀ e ∈ l1 ++ l2, uiOnly e = true := by
  intro e he
  rcases List.mem_append.mp he with h | h
  · exact h1 e h
  · exact h2 e h

theorem uiOnly_nil : ∀ e ∈ ([] : List Ev), uiOnly e = true := by
  intro e he
  simp at he

theorem uiOnly_cons {a : Ev} {l : List Ev}
    (ha : uiOnly a = true) (hl : ∀ e ∈ l, uiOnly e = true) :
    ∀ e ∈ a :: l, uiOnly e = true := by
  intro e he
  rcases List.mem_cons.mp he with rfl | h
  · exact ha
  · exact hl e h

theorem add_website_source_uiOnly (env : Env) (u : String) :
    ∀ e ∈ (add_website_source env u).2, uiOnly e = true := by
  unfold add_website_source
  rcases h1 : (locate2 env selAddBtn1 selAddBtn2).1 with _ | b
  · exact locate2_uiOnly env _ _
  · rcases h2 : (locate2 env selWebsiteOpt1 selWebsiteOpt2).1 with _ | o
    · exact uiOnly_append
        (uiOnly_append (locate2_uiOnly env _ _) (uiOnly_cons rfl uiOnly_nil))
        (locate2_uiOnly env _ _)
    · rcases h3 : (locate2 env selUrlInput1 selUrlInput2).1 with _ | i
      · exact uiOnly_append
          (uiOnly_append
            (uiOnly_append (locate2_uiOnly env _ _) (uiOnly_cons rfl uiOnly_nil))
            (uiOnly_append (locate2_uiOnly env _ _) (uiOnly_cons rfl uiOnly_nil)))
          (locate2_uiOnly env _ _)
      · exact uiOnly_append
          (uiOnly_append
            (uiOnly_append
              (uiOnly_append (locate2_uiOnly env _ _) (uiOnly_cons rfl uiOnly_nil))
              (uiOnly_append (locate2_uiOnly env _ _) (uiOnly_cons rfl uiOnly_nil)))
            (locate2_uiOnly env _ _))
          (uiOnly_cons rfl (uiOnly_cons rfl uiOnly_nil))

theorem add_file_source_uiOnly (env : Env) (p : String) :
    ∀ e ∈ (add_file_source env p).2, uiOnly e = true := by
  unfold add_file_source
  cases hp : env.pathExists p
  · exact uiOnly_nil
  · rcases h1 : (locate2 env selAddBtn1 selAddBtn2).1 with _ | b
    · exact locate2_uiOnly env _ _
    · rcases h2 : (locate2 env selUploadOpt1 selUploadOpt2).1 with _ | o <;>
        cases hf : env.query selFileInput
      · exact uiOnly_append
          (uiOnly_append
            (uiOnly_append (locate2_uiOnly env _ _) (uiOnly_cons rfl uiOnly_nil))
            (locate2_uiOnly env _ _))
          (uiOnly_cons rfl uiOnly_nil)
      · exact uiOnly_append
          (uiOnly_append
            (uiOnly_append (locate2_uiOnly env _ _) (uiOnly_cons rfl uiOnly_nil))
            (locate2_uiOnly env _ _))
          (uiOnly_cons rfl (uiOnly_cons rfl uiOnly_nil))
      · exact uiOnly_append
          (uiOnly_append
            (uiOnly_append (locate2_uiOnly env _ _) (uiOnly_cons rfl uiOnly_nil))
            (uiOnly_append (locate2_uiOnly env _ _) (uiOnly_cons rfl uiOnly_nil)))
          (uiOnly_cons rfl uiOnly_nil)
      · exact uiOnly_append
          (uiOnly_append
            (uiOnly_append (locate2_uiOnly env _ _) (uiOnly_cons rfl uiOnly_nil))
            (uiOnly_append (locate2_uiOnly env _ _) (uiOnly_cons rfl uiOnly_nil)))
          (uiOnly_cons rfl (uiOnly_cons rfl uiOnly_nil))

theorem perSource_uiOnly (env : Env) (s : Src) :
    ∀ e ∈ (perSource env s).2, uiOnly e = true := by
  simp only [perSource]
  split
  · exact add_website_source_uiOnly env _
  · split
    · exact add_file_source_uiOnly env _
    · exact uiOnly_nil

theorem runSources_uiOnly (env : Env) (srcs : List Src) :
    ∀ e ∈ (runSources env srcs).2, uiOnly e = true := by
  induction srcs with
  | nil => intro e he; simp [runSources] at he
  | cons s rest ih =>
      intro e he
      have hsplit : e ∈ (perSource env s).2 ∨ e ∈ (runSources env rest).2 := by
        cases h : (perSource env s).1.success <;>
          simp [runSources, h] at he <;>
          tauto
      rcases hsplit with h | h
      · exact perSource_uiOnly env s e h
      · exact ih e h

theorem createAttempt_mem_create (env : Env) (name : String) :
    Ev.createAttempt ∈ (create_notebook env name).2 := by
  unfold create_notebook
  rcases h1 : (locate2 env selCreateBtn1 selCreateBtn2).1 with _ | b
  · simp
  · cases hn : env.query selNameInput <;> simp [hn]

/-- `envAllGood` with one notebook card titled "My Notes". -/
def envFound : Env :=
  ⟨true, none, fun _ => true,
   NotebookPane.cards [Card.mk 7 (some ("My Notes"))], fun _ => true⟩

/-- Claim C6: the notebook resolver compares titles case-insensitively
and exactly; when some title matches it clicks the first matching
notebook in list order and never enters notebook creation; creation is
attempted exactly when no title matches. -/
theorem notebook_resolver_first_match (env : Env) (name : String) (srcs : List Src)
    (hstate : env.stateExists = true) (hnav : env.navError = none) :
    (∀ nb, ((get_notebooks env).1).find? (matchesName name) = some nb →
        matchesName name nb = true
        ∧ (∃ l1 l2, (get_notebooks env).1 = l1 ++ nb :: l2
            ∧ ∀ x ∈ l1, matchesName name x = false)
        ∧ Ev.clickElem nb.element.elemId ∈ (upload_sources env name srcs).2
        ∧ Ev.createAttempt ∉ (upload_sources env name srcs).2)
    ∧ (((get_notebooks env).1).find? (matchesName name) = none →
        Ev.createAttempt ∈ (upload_sources env name srcs).2) := by
  constructor
  · intro nb hfind
    obtain ⟨hp, as, bs, hxs, hall⟩ := List.find?_eq_some.mp hfind
    refine ⟨hp, ⟨as, bs, hxs, ?_⟩, ?_, ?_⟩
    · intro x hx
      simpa using hall x hx
    · simp [upload_sources, hstate, hnav, hfind]
    · intro hmem
      simp [upload_sources, hstate, hnav, hfind] at hmem
      rcases hmem with hm | hm
      · exact absurd (get_notebooks_uiOnly env _ hm) (by decide)
      · exact absurd (runSources_uiOnly env srcs _ hm) (by decide)
  · intro hfind
    have hc := createAttempt_mem_create env name
    cases hcr : (create_notebook env name).1 <;>
      simp [upload_sources, hstate, hnav, hfind, hcr, hc]

theorem notebook_resolver_first_match_witness :
    envFound.stateExists = true
    ∧ envFound.navError = none
    ∧ ((get_notebooks envFound).1).find? (matchesName ("my notes"))
        = some (Notebook.mk ("My Notes") (Card.mk 7 (some ("My Notes"))))
    ∧ Ev.clickElem 7 ∈ (upload_sources envFound ("my notes") []).2
    ∧ Ev.createAttempt ∉ (upload_sources envFound ("my notes") []).2 := by
  have h := (notebook_resolver_first_match envFound ("my notes") [] rfl rfl).1
    (Notebook.mk ("My Notes") (Card.mk 7 (some ("My Notes")))) (by decide)
  exact ⟨rfl, rfl, by decide, h.2.2.1, h.2.2.2⟩

/-- Claim C2 counterexample: a fully-working `list_notebooks` run closes
the browser but never persists the session state back to the state file,
refuting persist-on-every-exit for the list operation. -/
theorem list_notebooks_no_persist_counterexample :
    Ev.closeBrowser ∈ (list_notebooks envAllGood).2
    ∧ Ev.storageState ∉ (list_notebooks envAllGood).2 := by
  decide

/-- Claim C2 (amended): with the state file present, `upload_sources`
persists the session state and closes the browser as its final two
actions on every exit path; `list_notebooks` closes the browser as its
final action on every exit path but never persists the session state. -/
theorem cleanup_on_every_exit (env : Env) (name : String) (srcs : List Src)
    (h : env.stateExists = true) :
    ([Ev.storageState, Ev.closeBrowser] <:+ (upload_sources env name srcs).2)
    ∧ ([Ev.closeBrowser] <:+ (list_notebooks env).2)
    ∧ Ev.storageState ∉ (list_notebooks env).2 := by
  refine ⟨?_, ?_, ?_⟩
  · cases hnav : env.navError with
    | some e =>
        have ht : (upload_sources env name srcs).2
            = [Ev.launch, Ev.newContext, Ev.newPage, Ev.gotoUrl notebooklmUrl]
              ++ [Ev.storageState, Ev.closeBrowser] := by
          simp [upload_sources, h, hnav]
        rw [ht]
        exact List.suffix_append _ _
    | none =>
        cases hfind : ((get_notebooks env).1).find? (matchesName name) with
        | some nb =>
            have ht : (upload_sources env name srcs).2
                = ([Ev.launch, Ev.newContext, Ev.newPage, Ev.gotoUrl notebooklmUrl,
                    Ev.waitForLoad]
                   ++ (get_notebooks env).2 ++ [Ev.clickElem nb.element.elemId]
                   ++ (runSources env srcs).2)
                  ++ [Ev.storageState, Ev.closeBrowser] := by
              simp [upload_sources, h, hnav, hfind]
            rw [ht]
            exact List.suffix_append _ _
        | none =>
            cases hcr : (create_notebook env name).1
            · have ht : (upload_sources env name srcs).2
                  = ([Ev.launch, Ev.newContext, Ev.newPage, Ev.gotoUrl notebooklmUrl,
                      Ev.waitForLoad]
                     ++ (get_notebooks env).2 ++ (create_notebook env name).2)
                    ++ [Ev.storageState, Ev.closeBrowser] := by
                simp [upload_sources, h, hnav, hfind, hcr]
              rw [ht]
              exact List.suffix_append _ _
            · have ht : (upload_sources env name srcs).2
                  = ([Ev.launch, Ev.newContext, Ev.newPage, Ev.gotoUrl notebooklmUrl,
                      Ev.waitForLoad]
                     ++ (get_notebooks env).2 ++ (create_notebook env name).2
                     ++ (runSources env srcs).2)
                    ++ [Ev.storageState, Ev.closeBrowser] := by
                simp [upload_sources, h, hnav, hfind, hcr]
              rw [ht]
              exact List.suffix_append _ _
  · cases hnav : env.navError with
    | some e =>
        have ht : (list_notebooks env).2
            = [Ev.launch, Ev.newContext, Ev.newPage, Ev.gotoUrl notebooklmUrl]
              ++ [Ev.closeBrowser] := by
          simp [list_notebooks, h, hnav]
        rw [ht]
        exact List.suffix_append _ _
    | none =>
        have ht : (list_notebooks env).2
            = ([Ev.launch, Ev.newContext, Ev.newPage, Ev.gotoUrl notebooklmUrl,
                Ev.waitForLoad] ++ (get_notebooks env).2)
              ++ [Ev.closeBrowser] := by
          simp [list_notebooks, h, hnav]
        rw [ht]
        exact List.suffix_append _ _
  · cases hnav : env.navError with
    | some e => simp [list_notebooks, h, hnav]
    | none =>
        intro hmem
        simp [list_notebooks, h, hnav] at hmem
        exact absurd (get_notebooks_uiOnly env _ hmem) (by decide)

theorem cleanup_on_every_exit_witness :
    envAllGood.stateExists = true
    ∧ ([Ev.storageState, Ev.closeBrowser]
        <:+ (upload_sources envAllGood ("Research") []).2)
    ∧ ([Ev.closeBrowser] <:+ (list_notebooks envAllGood).2)
    ∧ Ev.storageState ∉ (list_notebooks envAllGood).2 := by
  have h := cleanup_on_every_exit envAllGood ("Research") [] rfl
  exact ⟨rfl, h.1, h.2.1, h.2.2⟩

/-- Whether the add-source button is located by either strategy. -/
def foundAddBtn (env : Env) : Bool :=
  env.query selAddBtn1 || env.query selAddBtn2

/-- Whether the website option is located by either strategy. -/
def foundWebsiteOpt (env : Env) : Bool :=
  env.query selWebsiteOpt1 || env.query selWebsiteOpt2

/-- Whether the URL input is located by either strategy. -/
def foundUrlInput (env : Env) : Bool :=
  env.query selUrlInput1 || env.query selUrlInput2

theorem locate2_found (env : Env) (s1 s2 : String) :
    (locate2 env s1 s2).1.isSome = (env.query s1 || env.query s2) := by
  unfold locate2
  cases h1 : env.query s1 <;> cases h2 : env.query s2 <;> simp [h1, h2]

/-- `envAllGood` except that neither strategy locates the "Upload"
option in the add-file flow. -/
def envNoUploadOpt : Env :=
  ⟨true, none,
   fun s => !(s == selUploadOpt1) && !(s == selUploadOpt2),
   NotebookPane.cards [], fun _ => true⟩

/-- Claim C4 counterexample: in the add-file flow the "Upload" option is
a located-element step with two configured strategies, yet when both
fail the operation still succeeds with no error naming it — refuting
"success iff every located-element step succeeded". -/
theorem add_file_source_optional_upload_counterexample :
    envNoUploadOpt.query selUploadOpt1 = false
    ∧ envNoUploadOpt.query selUploadOpt2 = false
    ∧ (add_file_source envNoUploadOpt ("doc.pdf")).1.success = true
    ∧ (add_file_source envNoUploadOpt ("doc.pdf")).1.error = none := by
  decide

theorem add_website_source_controls (env : Env) (url : String) :
    ((add_website_source env url).1.success = true ↔
      (foundAddBtn env = true ∧ foundWebsiteOpt env = true
        ∧ foundUrlInput env = true))
    ∧ (foundAddBtn env = false →
        (add_website_source env url).1.error = some msgNoAddBtn)
    ∧ (foundAddBtn env = true → foundWebsiteOpt env = false →
        (add_website_source env url).1.error = some msgNoWebsiteOpt)
    ∧ (foundAddBtn env = true → foundWebsiteOpt env = true →
        foundUrlInput env = false →
        (add_website_source env url).1.error = some msgNoUrlInput) := by
  have hfa := locate2_found env selAddBtn1 selAddBtn2
  have hfw := locate2_found env selWebsiteOpt1 selWebsiteOpt2
  have hfu := locate2_found env selUrlInput1 selUrlInput2
  rcases hA : (locate2 env selAddBtn1 selAddBtn2).1 with _ | b
  · rw [hA] at hfa
    have hfa2 : foundAddBtn env = false := hfa.symm
    have hres : (add_website_source env url).1
        = ⟨false, some msgNoAddBtn, none, none⟩ := by
      simp [add_website_source, hA]
    rw [hres]
    simp [hfa2]
  · rw [hA] at hfa
    have hfa2 : foundAddBtn env = true := hfa.symm
    rcases hB : (locate2 env selWebsiteOpt1 selWebsiteOpt2).1 with _ | o
    · rw [hB] at hfw
      have hfw2 : foundWebsiteOpt env = false := hfw.symm
      have hres : (add_website_source env url).1
          = ⟨false, some msgNoWebsiteOpt, none, none⟩ := by
        simp [add_website_source, hA, hB]
      rw [hres]
      simp [hfa2, hfw2]
    · rw [hB] at hfw
      have hfw2 : foundWebsiteOpt env = true := hfw.symm
      rcases hC : (locate2 env selUrlInput1 selUrlInput2).1 with _ | i
      · rw [hC] at hfu
        have hfu2 : foundUrlInput env = false := hfu.symm
        have hres : (add_website_source env url).1
            = ⟨false, some msgNoUrlInput, none, none⟩ := by
          simp [add_website_source, hA, hB, hC]
        rw [hres]
        simp [hfa2, hfw2, hfu2]
      · rw [hC] at hfu
        have hfu2 : foundUrlInput env = true := hfu.symm
        have hres : (add_website_source env url).1
            = ⟨true, none, some url, none⟩ := by
          simp [add_website_source, hA, hB, hC]
        rw [hres]
        simp [hfa2, hfw2, hfu2]

theorem add_file_source_controls (env : Env) (p : String)
    (hp : env.pathExists p = true) :
    ((add_file_source env p).1.success = true ↔
      (foundAddBtn env = true ∧ env.query selFileInput = true))
    ∧ (foundAddBtn env = false →
        (add_file_source env p).1.error = some msgNoAddBtn)
    ∧ (foundAddBtn env = true → env.query selFileInput = false →
        (add_file_source env p).1.error = some msgNoFileInput) := by
  have hfa := locate2_found env selAddBtn1 selAddBtn2
  rcases hA : (locate2 env selAddBtn1 selAddBtn2).1 with _ | b
  · rw [hA] at hfa
    have hfa2 : foundAddBtn env = false := hfa.symm
    have hres : (add_file_source env p).1
        = ⟨false, some msgNoAddBtn, none, none⟩ := by
      simp [add_file_source, hp, hA]
    rw [hres]
    simp [hfa2]
  · rw [hA] at hfa
    have hfa2 : foundAddBtn env = true := hfa.symm
    cases hq : env.query selFileInput
    · have hres : (add_file_source env p).1
          = ⟨false, some msgNoFileInput, none, none⟩ := by
        rcases h2 : (locate2 env selUploadOpt1 selUploadOpt2).1 with _ | o <;>
          simp [add_file_source, hp, hA, h2, hq]
      rw [hres]
      simp [hfa2, hq]
    · have hres : (add_file_source env p).1
          = ⟨true, none, none, some p⟩ := by
        rcases h2 : (locate2 env selUploadOpt1 selUploadOpt2).1 with _ | o <;>
          simp [add_file_source, hp, hA, h2, hq]
      rw [hres]
      simp [hfa2, hq]

/-- Claim C4 (amended): a website add succeeds iff the add-source
button, the website option and the URL input are each located by one of
their strategies, and each missing required control yields an error
naming it; a file add (for an existing path) succeeds iff the
add-source button and the file input are located — the "Upload" option
is optional and skipped silently when absent — with the missing
required control named in the error; no branch escapes without a
structured result. -/
theorem add_source_control_location (env : Env) (url p : String)
    (hp : env.pathExists p = true) :
    ((add_website_source env url).1.success = true ↔
      (foundAddBtn env = true ∧ foundWebsiteOpt env = true
        ∧ foundUrlInput env = true))
    ∧ (foundAddBtn env = false →
        (add_website_source env url).1.error = some msgNoAddBtn)
    ∧ (foundAddBtn env = true → foundWebsiteOpt env = false →
        (add_website_source env url).1.error = some msgNoWebsiteOpt)
    ∧ (foundAddBtn env = true → foundWebsiteOpt env = true →
        foundUrlInput env = false →
        (add_website_source env url).1.error = some msgNoUrlInput)
    ∧ ((add_file_source env p).1.success = true ↔
        (foundAddBtn env = true ∧ env.query selFileInput = true))
    ∧ (foundAddBtn env = false →
        (add_file_source env p).1.error = some msgNoAddBtn)
    ∧ (foundAddBtn env = true → env.query selFileInput = false →
        (add_file_source env p).1.error = some msgNoFileInput) := by
  obtain ⟨w1, w2, w3, w4⟩ := add_website_source_controls env url
  obtain ⟨f1, f2, f3⟩ := add_file_source_controls env p hp
  exact ⟨w1, w2, w3, w4, f1, f2, f3⟩

theorem add_source_control_location_witness :
    envNothingFound.pathExists ("doc.pdf") = true
    ∧ (add_website_source envNothingFound ("http://a.example")).1.error
        = some msgNoAddBtn
    ∧ (add_file_source envNothingFound ("doc.pdf")).1.error = some msgNoAddBtn
    ∧ (add_website_source envAllGood ("http://a.example")).1.success = true
    ∧ (add_file_source envAllGood ("doc.pdf")).1.success = true := by
  have h1 := add_source_control_location envNothingFound ("http://a.example")
    ("doc.pdf") rfl
  have h2 := add_source_control_location envAllGood ("http://a.example")
    ("doc.pdf") rfl
  refine ⟨rfl, h1.2.1 rfl, h1.2.2.2.2.2.1 rfl, ?_, ?_⟩
  · exact h2.1.mpr ⟨rfl, rfl, rfl⟩
  · exact h2.2.2.2.2.1.mpr ⟨rfl, rfl⟩

end NotebookLM
